import Mathlib

/-!
Shallow embedding of the Recipe-App-Reviews backend (Django REST framework
application) and proofs about its engagement layer (favorite / rating /
comment), its derived-field serializers, its list endpoints and its
permission classes.

The file `src/recipes/models.py` of the repository holds the DRF view code
(`RecipeViewSet` and friends); `src/recipes/serializers.py` holds the
serializer classes imported by those views (`src/recipes/views.py` is an
older serializer snapshot that nothing imports).  The Django model layer
itself (the `Recipe.average_rating` model method, field declarations) is
not among the source files, so those parts are modelled from the spec and
marked as such in their doc comments.  Everything else is translated
directly from the Python source.
-/

namespace RecipeApp

/-- User identifier (Django primary key) used to key engagement rows. -/
abbrev UserId := Nat

/-- Recipe identifier (Django primary key). -/
abbrev RecipeId := Nat

/-- Values a Django REST request can carry in `request.data.get(...)`:
absent (`None`), a Python int, a non-integral numeric (modelled as an exact
rational) or a string.  Mirrors the dynamic typing of the rate/comment
views, which store whatever value was submitted. -/
inductive PyVal where
  | none : PyVal
  | int (n : ℤ) : PyVal
  | float (q : ℚ) : PyVal
  | str (s : String) : PyVal
deriving DecidableEq

/-- Python truthiness of a request value: `None`, `0`, `0.0` and `""` are
falsy, everything else is truthy (the `if not rating_value` check). -/
def truthy : PyVal → Bool
  | PyVal.none => false
  | PyVal.int n => n != 0
  | PyVal.float q => q != 0
  | PyVal.str s => s != ""

/-- Truncation toward zero, the behaviour of Python `int()` on a numeric
argument. -/
def ratTrunc (q : ℚ) : ℤ :=
  if 0 ≤ q then ⌊q⌋ else ⌈q⌉

/-- Accumulating decimal-digit parser: fails on the first non-digit
character. -/
def digitsValAux : List Char → Nat → Option Nat
  | [], acc => some acc
  | c :: cs, acc =>
    if c.isDigit then digitsValAux cs (acc * 10 + (c.toNat - 48))
    else Option.none

/-- Value of a non-empty all-digit character list, `Option.none`
otherwise. -/
def digitsVal : List Char → Option Nat
  | [] => Option.none
  | l => digitsValAux l 0

/-- Python `int(s)` on a string: an optional sign followed by at least one
decimal digit parses to that integer; anything else (such as `"abc"` or
`"4.5"`) raises `ValueError`, modelled as `Option.none`. -/
def pyStrToInt (s : String) : Option ℤ :=
  match s.toList with
  | '-' :: rest => (digitsVal rest).map (fun n => -(n : ℤ))
  | '+' :: rest => (digitsVal rest).map (fun n => (n : ℤ))
  | l => (digitsVal l).map (fun n => (n : ℤ))

/-- Python `int(v)` on a request value: succeeds on numerics (truncating)
and on integer-literal strings; raises (modelled as `Option.none`) on
`None` and on non-numeric strings such as `"abc"`. -/
def pyIntOf : PyVal → Option ℤ
  | PyVal.none => Option.none
  | PyVal.int n => some n
  | PyVal.float q => some (ratTrunc q)
  | PyVal.str s => pyStrToInt s

/-- One row of the `Favorite` table: `user` and `recipe` foreign keys
(the `created_at` timestamp is irrelevant to the claims). -/
structure FavoriteRow where
  user : UserId
  recipe : RecipeId
deriving DecidableEq

/-- One row of the `Rating` table.  The rate view stores the raw submitted
request value (`defaults={'rating': rating_value}`), so the field carries a
`PyVal`. -/
structure RatingRow where
  user : UserId
  recipe : RecipeId
  rating : PyVal
deriving DecidableEq

/-- One row of the `Comment` table.  The comment view stores the submitted
text verbatim. -/
structure CommentRow where
  user : UserId
  recipe : RecipeId
  text : String
deriving DecidableEq

/-- The mutable store as seen by the engagement views: the `Favorite`,
`Rating` and `Comment` tables. -/
structure Store where
  favorites : List FavoriteRow
  ratings : List RatingRow
  comments : List CommentRow
deriving DecidableEq

/-- The empty store. -/
def emptyStore : Store := ⟨[], [], []⟩

/-- Row matches the (user, recipe) pair — the lookup filter
`Favorite.objects.filter(user=..., recipe=...)`. -/
def favPairMatch (u : UserId) (r : RecipeId) (row : FavoriteRow) : Bool :=
  row.user == u && row.recipe == r

/-- Row matches the (user, recipe) pair — the lookup keys of
`Rating.objects.update_or_create(user=..., recipe=..., ...)`. -/
def ratPairMatch (u : UserId) (r : RecipeId) (row : RatingRow) : Bool :=
  row.user == u && row.recipe == r

/-- Number of `Favorite` rows for a (user, recipe) pair. -/
def countFavPair (l : List FavoriteRow) (u : UserId) (r : RecipeId) : Nat :=
  (l.filter (favPairMatch u r)).length

/-- Number of `Rating` rows for a (user, recipe) pair. -/
def countRatPair (l : List RatingRow) (u : UserId) (r : RecipeId) : Nat :=
  (l.filter (ratPairMatch u r)).length

/-- Existence test behind `get_or_create` / `update_or_create` for
favorites. -/
def hasFavPair (l : List FavoriteRow) (u : UserId) (r : RecipeId) : Bool :=
  l.any (favPairMatch u r)

/-- Existence test behind `update_or_create` for ratings. -/
def hasRatPair (l : List RatingRow) (u : UserId) (r : RecipeId) : Bool :=
  l.any (ratPairMatch u r)

/-- Outcome of the favorite / unfavorite / rate / comment actions, carrying
the HTTP status distinction the views make. -/
inductive EngageOutcome where
  | createdNew : EngageOutcome
  | alreadyExists : EngageOutcome
  | removed : EngageOutcome
  | notFound : EngageOutcome
  | badRequest : EngageOutcome
  | serverError : EngageOutcome
  | okUpdated : EngageOutcome
deriving DecidableEq

/-- `RecipeViewSet.favorite` (src/recipes/models.py lines 115-124):
`Favorite.objects.get_or_create(user=request.user, recipe=recipe)` —
returns 201 with a fresh row when the pair is absent, 200 and no change
when it already exists. -/
def favoriteView (s : Store) (u : UserId) (r : RecipeId) :
    Store × EngageOutcome :=
  if hasFavPair s.favorites u r then (s, EngageOutcome.alreadyExists)
  else ({ s with favorites := s.favorites ++ [⟨u, r⟩] },
        EngageOutcome.createdNew)

/-- Deletion of the first matching row — `filter(...).first()` followed by
`.delete()` in the unfavorite view. -/
def removeFirstFav (l : List FavoriteRow) (u : UserId) (r : RecipeId) :
    List FavoriteRow :=
  match l with
  | [] => []
  | row :: rest =>
    if favPairMatch u r row then rest else row :: removeFirstFav rest u r

/-- `RecipeViewSet.unfavorite` (src/recipes/models.py lines 126-133):
deletes the first matching `Favorite` row (204) or reports 404 when none
exists. -/
def unfavoriteView (s : Store) (u : UserId) (r : RecipeId) :
    Store × EngageOutcome :=
  if hasFavPair s.favorites u r then
    ({ s with favorites := removeFirstFav s.favorites u r },
     EngageOutcome.removed)
  else (s, EngageOutcome.notFound)

/-- `Rating.objects.update_or_create(user=..., recipe=..., defaults={'rating': v})`:
overwrites the `rating` field of the first row matching the pair (returning
`created = false`), or appends a fresh row (returning `created = true`). -/
def updateOrCreateRating (l : List RatingRow) (u : UserId) (r : RecipeId)
    (v : PyVal) : List RatingRow × Bool :=
  match l with
  | [] => ([⟨u, r, v⟩], true)
  | row :: rest =>
    if ratPairMatch u r row then (⟨u, r, v⟩ :: rest, false)
    else
      let p := updateOrCreateRating rest u r v
      (row :: p.1, p.2)

/-- Replacement of the `rating` field of the first row matching the
(user, recipe) pair — the "update" half of `update_or_create`. -/
def overwriteFirstRating (l : List RatingRow) (u : UserId) (r : RecipeId)
    (v : PyVal) : List RatingRow :=
  match l with
  | [] => []
  | row :: rest =>
    if ratPairMatch u r row then ⟨u, r, v⟩ :: rest
    else row :: overwriteFirstRating rest u r v

/-- `RecipeViewSet.rate` (src/recipes/models.py lines 135-150):

    rating_value = request.data.get('rating')
    if not rating_value or not (1 <= int(rating_value) <= 5):
        return 400
    rating, created = Rating.objects.update_or_create(
        user=request.user, recipe=recipe, defaults={'rating': rating_value})
    return 201 if created else 200

A falsy value short-circuits to 400; otherwise `int(rating_value)` may
raise (an unhandled exception, i.e. a 500 server error); if the truncated
value lies in [1,5] the raw submitted value is upserted. -/
def rateView (s : Store) (u : UserId) (r : RecipeId) (v : PyVal) :
    Store × EngageOutcome :=
  if !truthy v then (s, EngageOutcome.badRequest)
  else
    match pyIntOf v with
    | Option.none => (s, EngageOutcome.serverError)
    | some k =>
      if 1 ≤ k ∧ k ≤ 5 then
        let p := updateOrCreateRating s.ratings u r v
        ({ s with ratings := p.1 },
         if p.2 then EngageOutcome.createdNew else EngageOutcome.okUpdated)
      else (s, EngageOutcome.badRequest)

/-- Truthiness of `request.data.get('text')`: absent or empty string is
falsy; any other string (whitespace-only included) is truthy. -/
def truthyText : Option String → Bool
  | Option.none => false
  | some t => t != ""

/-- `RecipeViewSet.comment` (src/recipes/models.py lines 152-166):

    text = request.data.get('text')
    if not text:
        return 400
    comment = Comment.objects.create(user=request.user, recipe=recipe, text=text)
    return 201

The text is stored verbatim — no trimming happens anywhere on this path
(`CommentSerializer` is used only to render the response). -/
def commentView (s : Store) (u : UserId) (r : RecipeId)
    (text : Option String) : Store × EngageOutcome :=
  if !truthyText text then (s, EngageOutcome.badRequest)
  else ({ s with comments := s.comments ++ [⟨u, r, text.getD ""⟩] },
        EngageOutcome.createdNew)

/-- One engagement call: favorite, unfavorite or rate (the calls named by
the uniqueness claim). -/
inductive EngageOp where
  | fav (u : UserId) (r : RecipeId) : EngageOp
  | unfav (u : UserId) (r : RecipeId) : EngageOp
  | rate (u : UserId) (r : RecipeId) (v : PyVal) : EngageOp
deriving DecidableEq

/-- Store transition of one engagement call. -/
def applyOp (s : Store) : EngageOp → Store
  | EngageOp.fav u r => (favoriteView s u r).1
  | EngageOp.unfav u r => (unfavoriteView s u r).1
  | EngageOp.rate u r v => (rateView s u r v).1

/-- Store reached after a finite sequence of engagement calls. -/
def applyOps (s : Store) (ops : List EngageOp) : Store :=
  ops.foldl applyOp s

/-- Uniqueness invariant: at most one `Favorite` row per (user, recipe). -/
def FavUnique (s : Store) : Prop :=
  ∀ u r, countFavPair s.favorites u r ≤ 1

/-- Uniqueness invariant: at most one `Rating` row per (user, recipe). -/
def RatUnique (s : Store) : Prop :=
  ∀ u r, countRatPair s.ratings u r ≤ 1

/-- HTTP request methods that reach the permission checks. -/
inductive Method where
  | GET : Method
  | HEAD : Method
  | OPTIONS : Method
  | POST : Method
  | PUT : Method
  | PATCH : Method
  | DELETE : Method
deriving DecidableEq

/-- `permissions.SAFE_METHODS` — GET, HEAD, OPTIONS. -/
def isSafeMethod : Method → Bool
  | Method.GET => true
  | Method.HEAD => true
  | Method.OPTIONS => true
  | _ => false

/-- An authenticated requester (`request.user`): primary key, username and
the Django staff flag used for admin checks. -/
structure Account where
  id : Nat
  username : String
  is_staff : Bool
deriving DecidableEq

/-- An object handed to `has_object_permission`, exposing the attributes
the checks probe with `hasattr`: `author` on a Recipe, `user` on a
Favorite / Rating / Comment, possibly neither.  `Option.none` models the
attribute being absent. -/
structure PObj where
  author : Option Account
  user : Option Account
deriving DecidableEq

/-- `IsOwnerOrReadOnly.has_object_permission`
(src/recipes/permissions.py lines 15-25): safe methods are always allowed;
writes are allowed only when `obj.author` (if the attribute exists) or
else `obj.user` (if that attribute exists) equals `request.user`; with
neither attribute the check returns `False`.  Note that `is_staff` is
never consulted. -/
def isOwnerOrReadOnly (m : Method) (req : Account) (obj : PObj) : Bool :=
  if isSafeMethod m then true
  else
    match obj.author with
    | some a => a == req
    | Option.none =>
      match obj.user with
      | some u => u == req
      | Option.none => false

/-- `IsOwnerOrAdmin.has_object_permission`
(src/recipes/permissions.py lines 60-70): staff may do anything; otherwise
the same `author` / `user` attribute probe as `IsOwnerOrReadOnly`, falling
through to `False` when neither attribute exists. -/
def isOwnerOrAdmin (req : Account) (obj : PObj) : Bool :=
  if req.is_staff then true
  else
    match obj.author with
    | some a => a == req
    | Option.none =>
      match obj.user with
      | some u => u == req
      | Option.none => false

/-- A `Recipe` row with the fields the list endpoints and the
create/update serializer touch. -/
structure Recipe where
  id : Nat
  title : String
  description : String
  instructions : String
  ingredients : String
  image_url : String
  author : Account
  category : Option Nat
  prep_time : Nat
  cook_time : Nat
  servings : Nat
  is_published : Bool
  created_at : Nat
deriving DecidableEq

/-- Case-insensitive prefix test on character lists. -/
def startsWithChars (hay pat : List Char) : Bool :=
  match hay, pat with
  | _, [] => true
  | [], _ :: _ => false
  | h :: hs, p :: ps => h == p && startsWithChars hs ps

/-- Contiguous-substring test on character lists. -/
def containsChars (hay pat : List Char) : Bool :=
  match hay with
  | [] => pat.isEmpty
  | _ :: t => startsWithChars hay pat || containsChars t pat

/-- Django `icontains`: case-insensitive substring match. -/
def icontains (hay needle : String) : Bool :=
  containsChars hay.toLower.toList needle.toLower.toList

/-- Query parameters of `RecipeViewSet.get_queryset`
(`search`, `category`, `author`).  `Option.none` models an absent
parameter; an empty search string is falsy and disables the filter just
as in the Python `if search:` guard. -/
structure Filters where
  search : Option String
  category : Option Nat
  author : Option String
deriving DecidableEq

/-- The search filter
`Q(title__icontains=s) | Q(description__icontains=s) | Q(ingredients__icontains=s)`. -/
def matchesSearch (q : String) (rec : Recipe) : Bool :=
  icontains rec.title q || icontains rec.description q ||
    icontains rec.ingredients q

/-- Conjunction of the three optional filters of `get_queryset`.  No
filter ever consults `is_published` or any viewer identity. -/
def matchesFilters (f : Filters) (rec : Recipe) : Bool :=
  (match f.search with
   | some q => if q == "" then true else matchesSearch q rec
   | Option.none => true) &&
  (match f.category with
   | some c => rec.category == some c
   | Option.none => true) &&
  (match f.author with
   | some a => rec.author.username == a
   | Option.none => true)

/-- Ordering relation of `order_by('-created_at')`: most recent first. -/
def byCreatedDesc (a b : Recipe) : Prop :=
  b.created_at ≤ a.created_at

instance : DecidableRel byCreatedDesc := fun a b =>
  inferInstanceAs (Decidable (b.created_at ≤ a.created_at))

/-- `RecipeViewSet.get_queryset` (src/recipes/models.py lines 80-102):
starts from `Recipe.objects.all()`, applies the optional search / category
/ author filters, orders by `-created_at`.  There is no `is_published`
filter and no viewer-dependent restriction on this path. -/
def listRecipes (db : List Recipe) (f : Filters) : List Recipe :=
  (db.filter (matchesFilters f)).insertionSort byCreatedDesc

/-- `RecipeViewSet.my_recipes` (src/recipes/models.py lines 168-172):
`Recipe.objects.filter(author=request.user)` — every recipe authored by
the caller, published or not. -/
def myRecipes (db : List Recipe) (u : Account) : List Recipe :=
  db.filter (fun rec => rec.author == u)

/-- An `Ingredient` row belonging to a recipe (`ingredient_items`). -/
structure IngredientRow where
  name : String
  quantity : Option String
  unit : Option String
  notes : Option String
deriving DecidableEq

/-- The validated data of a partial recipe update: `Option.none` marks a
field not supplied in the request (the writable fields of
`RecipeCreateUpdateSerializer` in src/recipes/serializers.py, `id` being
read-only and `author` not listed). -/
structure RecipeUpdate where
  title : Option String
  description : Option String
  instructions : Option String
  ingredients : Option String
  image_url : Option String
  category : Option (Option Nat)
  prep_time : Option Nat
  cook_time : Option Nat
  servings : Option Nat
  is_published : Option Bool
  ingredient_items : Option (List IngredientRow)
deriving DecidableEq

/-- An update request supplying nothing. -/
def emptyUpdate : RecipeUpdate :=
  ⟨Option.none, Option.none, Option.none, Option.none, Option.none,
   Option.none, Option.none, Option.none, Option.none, Option.none,
   Option.none⟩

/-- `RecipeCreateUpdateSerializer.update`
(src/recipes/serializers.py lines 289-303):

    ingredients_data = validated_data.pop('ingredient_items', None)
    for attr, value in validated_data.items():
        setattr(instance, attr, value)
    instance.save()
    if ingredients_data is not None:
        instance.ingredient_items.all().delete()
        for ingredient_data in ingredients_data:
            Ingredient.objects.create(recipe=instance, **ingredient_data)
    return instance

Every supplied field overwrites the instance attribute, unsupplied fields
keep their value; a supplied ingredient list first deletes all prior
ingredient rows and then creates exactly the supplied ones. -/
def updateRecipe (inst : Recipe) (items : List IngredientRow)
    (d : RecipeUpdate) : Recipe × List IngredientRow :=
  let inst2 : Recipe :=
    { inst with
      title := d.title.getD inst.title
      description := d.description.getD inst.description
      instructions := d.instructions.getD inst.instructions
      ingredients := d.ingredients.getD inst.ingredients
      image_url := d.image_url.getD inst.image_url
      category := d.category.getD inst.category
      prep_time := d.prep_time.getD inst.prep_time
      cook_time := d.cook_time.getD inst.cook_time
      servings := d.servings.getD inst.servings
      is_published := d.is_published.getD inst.is_published }
  match d.ingredient_items with
  | Option.none => (inst2, items)
  | some newItems => (inst2, (items.filter (fun _ => false)) ++ newItems)

/-- The fields of a create-recipe request. -/
structure RecipeInput where
  title : String
  description : String
  instructions : String
  ingredients : String
  image_url : String
  category : Option Nat
  prep_time : Nat
  cook_time : Nat
  servings : Nat
  is_published : Bool
  ingredient_items : List IngredientRow
deriving DecidableEq

/-- Modelled from the spec: the minimum-length checks on recipe creation
(`title` at least 3 characters, `description` at least 10) belong to the
`validate_title` / `validate_description` serializer methods of the later
repository snapshots, which are not among the files under src/; the spec
states "title must be ≥3 characters, description ≥10 characters". -/
def titleOk (t : String) : Bool :=
  3 ≤ t.length

/-- Modelled from the spec: the description half of the same validation
policy. -/
def descriptionOk (d : String) : Bool :=
  10 ≤ d.length

/-- Combined create-recipe validation (spec-modelled, see `titleOk`). -/
def validateRecipeInput (inp : RecipeInput) : Bool :=
  titleOk inp.title && descriptionOk inp.description

/-- The recipe row built by `Recipe.objects.create(**validated_data)` with
`author` forced to the requester (`perform_create` passes
`author=self.request.user`). -/
def mkRecipe (newId : Nat) (author : Account) (now : Nat)
    (inp : RecipeInput) : Recipe :=
  { id := newId
    title := inp.title
    description := inp.description
    instructions := inp.instructions
    ingredients := inp.ingredients
    image_url := inp.image_url
    author := author
    category := inp.category
    prep_time := inp.prep_time
    cook_time := inp.cook_time
    servings := inp.servings
    is_published := inp.is_published
    created_at := now }

/-- Create-recipe operation: the spec-modelled validation gate followed by
`RecipeCreateUpdateSerializer.create`
(src/recipes/serializers.py lines 280-287), which creates the recipe row
and its ingredient rows.  On validation failure nothing is created. -/
def createRecipe (db : List Recipe) (newId : Nat) (author : Account)
    (now : Nat) (inp : RecipeInput) :
    List Recipe × EngageOutcome :=
  if validateRecipeInput inp then
    (db ++ [mkRecipe newId author now inp], EngageOutcome.createdNew)
  else (db, EngageOutcome.badRequest)

/-- Modelled from the spec: the `Recipe.average_rating` model method lives
in the Django model file, which is not among the files under src/; the
spec defines it as "mean of associated Rating.rating (0.0 if none)". -/
def average_rating : List ℤ → ℚ
  | [] => 0
  | l => ((l.sum : ℤ) : ℚ) / (l.length : ℚ)

/-- Python `round` to the nearest integer: banker's rounding
(round half to even). -/
def roundHalfEven (q : ℚ) : ℤ :=
  if q - (⌊q⌋ : ℚ) < 1 / 2 then ⌊q⌋
  else if 1 / 2 < q - (⌊q⌋ : ℚ) then ⌊q⌋ + 1
  else if ⌊q⌋ % 2 = 0 then ⌊q⌋ else ⌊q⌋ + 1

/-- Python `round(x, 1)`: one decimal digit, banker's rounding (modelled
over exact rationals). -/
def pyRound1 (q : ℚ) : ℚ :=
  ((roundHalfEven (10 * q) : ℤ) : ℚ) / 10

/-- `RecipeListSerializer.get_average_rating` /
`RecipeDetailSerializer.get_average_rating`
(src/recipes/serializers.py lines 186-187 and 233-234, likewise in the
views.py snapshot): `round(obj.average_rating(), 1)` — the model-level
mean is rounded to one decimal before being returned. -/
def get_average_rating (ratings : List ℤ) : ℚ :=
  pyRound1 (average_rating ratings)

/-- Concrete non-staff account used in instantiations. -/
def ownerAcct : Account := ⟨1, "alice", false⟩

/-- Concrete staff (admin) account used in instantiations. -/
def adminAcct : Account := ⟨2, "admin", true⟩

/-- A Comment-like permission object: it has a `user` attribute (its
owner) and no `author` attribute. -/
def commentObj : PObj := ⟨Option.none, some ownerAcct⟩

/-- A concrete unpublished recipe. -/
def sampleUnpublished : Recipe :=
  { id := 1
    title := "Secret cake"
    description := "hidden draft"
    instructions := "mix and bake"
    ingredients := "flour"
    image_url := ""
    author := ownerAcct
    category := Option.none
    prep_time := 5
    cook_time := 10
    servings := 2
    is_published := false
    created_at := 100 }

/-- No query parameters. -/
def noFilters : Filters := ⟨Option.none, Option.none, Option.none⟩

/-- A concrete create-recipe request whose title has exactly 3 characters
and whose description has exactly 10. -/
def sampleInput : RecipeInput :=
  { title := "Pie"
    description := "Delicious!"
    instructions := "bake it"
    ingredients := "apples"
    image_url := ""
    category := Option.none
    prep_time := 1
    cook_time := 2
    servings := 3
    is_published := true
    ingredient_items := [] }

/-- A concrete replacement ingredient list. -/
def sampleItems : List IngredientRow :=
  [⟨"flour", some "2", some "cups", Option.none⟩]

/-- A concrete partial update: new title and a replacement ingredient
list; everything else unsupplied. -/
def sampleUpd : RecipeUpdate :=
  { emptyUpdate with title := some "New title", ingredient_items := some sampleItems }

/-! ### Helper lemmas about the engagement tables -/

theorem countFavPair_append (l1 l2 : List FavoriteRow) (u : UserId)
    (r : RecipeId) :
    countFavPair (l1 ++ l2) u r = countFavPair l1 u r + countFavPair l2 u r := by
  simp [countFavPair, List.filter_append]

theorem countRatPair_append (l1 l2 : List RatingRow) (u : UserId)
    (r : RecipeId) :
    countRatPair (l1 ++ l2) u r = countRatPair l1 u r + countRatPair l2 u r := by
  simp [countRatPair, List.filter_append]

theorem hasFavPair_cons (a : FavoriteRow) (t : List FavoriteRow)
    (u : UserId) (r : RecipeId) :
    hasFavPair (a :: t) u r = (favPairMatch u r a || hasFavPair t u r) :=
  rfl

theorem hasRatPair_cons (a : RatingRow) (t : List RatingRow)
    (u : UserId) (r : RecipeId) :
    hasRatPair (a :: t) u r = (ratPairMatch u r a || hasRatPair t u r) :=
  rfl

theorem countFavPair_eq_zero_of_not_has (l : List FavoriteRow) (u : UserId)
    (r : RecipeId) (h : hasFavPair l u r = false) :
    countFavPair l u r = 0 := by
  induction l with
  | nil => simp [countFavPair]
  | cons a t ih =>
    rw [hasFavPair_cons] at h
    rcases Bool.or_eq_false_iff.mp h with ⟨h1, h2⟩
    simp [countFavPair, List.filter_cons, h1] at ih ⊢
    exact ih h2

theorem countRatPair_eq_zero_of_not_has (l : List RatingRow) (u : UserId)
    (r : RecipeId) (h : hasRatPair l u r = false) :
    countRatPair l u r = 0 := by
  induction l with
  | nil => simp [countRatPair]
  | cons a t ih =>
    rw [hasRatPair_cons] at h
    rcases Bool.or_eq_false_iff.mp h with ⟨h1, h2⟩
    simp [countRatPair, List.filter_cons, h1] at ih ⊢
    exact ih h2

theorem filter_eq_nil_of_count_zero (l : List RatingRow) (u : UserId)
    (r : RecipeId) (h : countRatPair l u r = 0) :
    l.filter (ratPairMatch u r) = [] :=
  List.length_eq_zero.mp h

theorem countFavPair_single (u : UserId) (r : RecipeId) (a : UserId)
    (c : RecipeId) :
    countFavPair [⟨a, c⟩] u r = if a = u ∧ c = r then 1 else 0 := by
  by_cases h : a = u ∧ c = r
  · simp [countFavPair, List.filter, favPairMatch, h.1, h.2, h]
  · have : favPairMatch u r ⟨a, c⟩ = false := by
      rcases not_and_or.mp h with h1 | h1 <;>
        simp [favPairMatch, beq_iff_eq, h1]
    simp [countFavPair, List.filter, this, h]

theorem countRatPair_single (u : UserId) (r : RecipeId) (v : PyVal)
    (a : UserId) (c : RecipeId) :
    countRatPair [⟨a, c, v⟩] u r = if a = u ∧ c = r then 1 else 0 := by
  by_cases h : a = u ∧ c = r
  · simp [countRatPair, List.filter, ratPairMatch, h.1, h.2, h]
  · have : ratPairMatch u r ⟨a, c, v⟩ = false := by
      rcases not_and_or.mp h with h1 | h1 <;>
        simp [ratPairMatch, beq_iff_eq, h1]
    simp [countRatPair, List.filter, this, h]

theorem countFavPair_removeFirst_le (l : List FavoriteRow) (u : UserId)
    (r : RecipeId) (a : UserId) (b : RecipeId) :
    countFavPair (removeFirstFav l u r) a b ≤ countFavPair l a b := by
  induction l with
  | nil => simp [removeFirstFav]
  | cons row t ih =>
    by_cases hm : favPairMatch u r row = true
    · simp only [removeFirstFav, hm, if_true]
      by_cases hm2 : favPairMatch a b row = true
      · simp [countFavPair, List.filter_cons, hm2]
      · simp [countFavPair, List.filter_cons, hm2]
    · simp only [removeFirstFav, hm, if_false, Bool.false_eq_true]
      by_cases hm2 : favPairMatch a b row = true
      · simp only [countFavPair, List.filter_cons, hm2, if_true,
          List.length_cons]
        have := ih
        simp only [countFavPair] at this
        omega
      · simp only [countFavPair, List.filter_cons, hm2, Bool.false_eq_true,
          if_false]
        have := ih
        simp only [countFavPair] at this
        omega

theorem updOC_of_not_has (l : List RatingRow) (u : UserId) (r : RecipeId)
    (v : PyVal) (h : hasRatPair l u r = false) :
    updateOrCreateRating l u r v = (l ++ [⟨u, r, v⟩], true) := by
  induction l with
  | nil => simp [updateOrCreateRating]
  | cons row t ih =>
    rw [hasRatPair_cons] at h
    rcases Bool.or_eq_false_iff.mp h with ⟨h1, h2⟩
    have ht := ih h2
    simp [updateOrCreateRating, h1, ht]

theorem updOC_of_has (l : List RatingRow) (u : UserId) (r : RecipeId)
    (v : PyVal) (h : hasRatPair l u r = true) :
    updateOrCreateRating l u r v = (overwriteFirstRating l u r v, false) := by
  induction l with
  | nil => simp [hasFavPair, hasRatPair] at h
  | cons row t ih =>
    by_cases hm : ratPairMatch u r row = true
    · simp [updateOrCreateRating, overwriteFirstRating, hm]
    · rw [hasRatPair_cons] at h
      have h2 : hasRatPair t u r = true := by
        rcases Bool.or_eq_true_iff.mp h with h1 | h1
        · exact absurd h1 hm
        · exact h1
      simp [updateOrCreateRating, overwriteFirstRating, hm, ih h2]

theorem ratPairMatch_fields (u : UserId) (r : RecipeId) (row : RatingRow)
    (h : ratPairMatch u r row = true) : row.user = u ∧ row.recipe = r := by
  simpa [ratPairMatch, Bool.and_eq_true, beq_iff_eq] using h

theorem countRatPair_overwriteFirst (l : List RatingRow) (u : UserId)
    (r : RecipeId) (v : PyVal) (a : UserId) (b : RecipeId) :
    countRatPair (overwriteFirstRating l u r v) a b = countRatPair l a b := by
  induction l with
  | nil => simp [overwriteFirstRating]
  | cons row t ih =>
    by_cases hm : ratPairMatch u r row = true
    · rcases ratPairMatch_fields u r row hm with ⟨hu, hr⟩
      have hsame : ratPairMatch a b (⟨u, r, v⟩ : RatingRow) =
          ratPairMatch a b row := by
        simp [ratPairMatch, ← hu, ← hr]
      simp only [overwriteFirstRating, hm, if_true]
      by_cases hm2 : ratPairMatch a b row = true <;>
        simp [countRatPair, List.filter_cons, hm2, hsame]
    · simp only [overwriteFirstRating, hm, if_false, Bool.false_eq_true]
      by_cases hm2 : ratPairMatch a b row = true
      · simp only [countRatPair, List.filter_cons, hm2, if_true,
          List.length_cons]
        have := ih
        simp only [countRatPair] at this
        omega
      · simp only [countRatPair, List.filter_cons, hm2, Bool.false_eq_true,
          if_false]
        exact ih

/-! ### Shape lemmas for the views -/

theorem rateView_store (s : Store) (u : UserId) (r : RecipeId) (v : PyVal) :
    (rateView s u r v).1 = s ∨
      (rateView s u r v).1 =
        { s with ratings := (updateOrCreateRating s.ratings u r v).1 } := by
  unfold rateView
  by_cases h1 : truthy v = true
  · simp only [h1, Bool.not_true, Bool.false_eq_true, if_false]
    cases hp : pyIntOf v with
    | none => simp
    | some k =>
      by_cases h2 : 1 ≤ k ∧ k ≤ 5
      · simp [h2]
      · simp [h2]
  · simp [Bool.eq_false_iff.mpr h1]

theorem favoriteView_ratings (s : Store) (u : UserId) (r : RecipeId) :
    (favoriteView s u r).1.ratings = s.ratings := by
  unfold favoriteView
  by_cases h : hasFavPair s.favorites u r = true <;> simp [h]

theorem unfavoriteView_ratings (s : Store) (u : UserId) (r : RecipeId) :
    (unfavoriteView s u r).1.ratings = s.ratings := by
  unfold unfavoriteView
  by_cases h : hasFavPair s.favorites u r = true <;> simp [h]

theorem favUnique_applyOp (s : Store) (op : EngageOp) (hf : FavUnique s) :
    FavUnique (applyOp s op) := by
  cases op with
  | fav u r =>
    show FavUnique (favoriteView s u r).1
    unfold favoriteView
    by_cases h : hasFavPair s.favorites u r = true
    · simpa [h] using hf
    · have h0 := countFavPair_eq_zero_of_not_has s.favorites u r
        (Bool.eq_false_iff.mpr h)
      intro a b
      simp only [Bool.eq_false_iff.mpr h, Bool.false_eq_true, if_false]
      rw [countFavPair_append, countFavPair_single]
      by_cases hab : u = a ∧ r = b
      · rcases hab with ⟨h1, h2⟩
        subst h1; subst h2
        simp [h0]
      · have := hf a b
        simp [hab]
        omega
  | unfav u r =>
    show FavUnique (unfavoriteView s u r).1
    unfold unfavoriteView
    by_cases h : hasFavPair s.favorites u r = true
    · intro a b
      simp only [h, if_true]
      exact le_trans (countFavPair_removeFirst_le s.favorites u r a b)
        (hf a b)
    · simpa [h] using hf
  | rate u r v =>
    show FavUnique (rateView s u r v).1
    rcases rateView_store s u r v with h | h <;>
      · rw [h]
        intro a b
        exact hf a b

theorem ratUnique_applyOp (s : Store) (op : EngageOp) (hr : RatUnique s) :
    RatUnique (applyOp s op) := by
  cases op with
  | fav u r =>
    show RatUnique (favoriteView s u r).1
    intro a b
    rw [show (favoriteView s u r).1.ratings = s.ratings from
      favoriteView_ratings s u r]
    exact hr a b
  | unfav u r =>
    show RatUnique (unfavoriteView s u r).1
    intro a b
    rw [show (unfavoriteView s u r).1.ratings = s.ratings from
      unfavoriteView_ratings s u r]
    exact hr a b
  | rate u r v =>
    show RatUnique (rateView s u r v).1
    rcases rateView_store s u r v with h | h
    · rw [h]; exact hr
    · rw [h]
      intro a b
      by_cases hh : hasRatPair s.ratings u r = true
      · show countRatPair (updateOrCreateRating s.ratings u r v).1 a b ≤ 1
        rw [updOC_of_has s.ratings u r v hh]
        rw [countRatPair_overwriteFirst]
        exact hr a b
      · show countRatPair (updateOrCreateRating s.ratings u r v).1 a b ≤ 1
        rw [updOC_of_not_has s.ratings u r v (Bool.eq_false_iff.mpr hh)]
        rw [countRatPair_append, countRatPair_single]
        have h0 := countRatPair_eq_zero_of_not_has s.ratings u r
          (Bool.eq_false_iff.mpr hh)
        by_cases hab : u = a ∧ r = b
        · rcases hab with ⟨h1, h2⟩
          subst h1; subst h2
          simp [h0]
        · have := hr a b
          simp [hab]
          omega

/-! ### Claim C1 -/

/-- Claim C1: after any finite sequence of favorite, unfavorite and rate
calls starting from a store whose Favorite and Rating tables hold at most
one row per (user, recipe) pair — in particular the empty store — every
(user, recipe) pair still has at most one Favorite row and at most one
Rating row. -/
theorem favorite_rating_unique_after_ops (s : Store) (ops : List EngageOp)
    (hf : FavUnique s) (hr : RatUnique s) :
    FavUnique (applyOps s ops) ∧ RatUnique (applyOps s ops) := by
  induction ops generalizing s with
  | nil => exact ⟨hf, hr⟩
  | cons op rest ih =>
    have h1 := favUnique_applyOp s op hf
    have h2 := ratUnique_applyOp s op hr
    simpa [applyOps] using ih (applyOp s op) h1 h2

/-- Witness for C1: a concrete run from the empty store (double favorite,
two ratings by the same user, then unfavorite) keeps both uniqueness
invariants. -/
theorem favorite_rating_unique_after_ops_witness :
    FavUnique (applyOps emptyStore
      [EngageOp.fav 1 1, EngageOp.fav 1 1, EngageOp.rate 1 1 (PyVal.int 3),
       EngageOp.rate 1 1 (PyVal.int 5), EngageOp.unfav 1 1]) ∧
    RatUnique (applyOps emptyStore
      [EngageOp.fav 1 1, EngageOp.fav 1 1, EngageOp.rate 1 1 (PyVal.int 3),
       EngageOp.rate 1 1 (PyVal.int 5), EngageOp.unfav 1 1]) :=
  favorite_rating_unique_after_ops emptyStore
    [EngageOp.fav 1 1, EngageOp.fav 1 1, EngageOp.rate 1 1 (PyVal.int 3),
     EngageOp.rate 1 1 (PyVal.int 5), EngageOp.unfav 1 1]
    (fun u r => by simp [countFavPair, emptyStore])
    (fun u r => by simp [countRatPair, emptyStore])

/-! ### Claim C2 -/

theorem count_pos_of_hasRatPair (l : List RatingRow) (u : UserId)
    (r : RecipeId) (h : hasRatPair l u r = true) :
    0 < countRatPair l u r := by
  rcases List.any_eq_true.mp h with ⟨row, hmem, hmatch⟩
  exact List.length_pos_of_mem (List.mem_filter.mpr ⟨hmem, hmatch⟩)

theorem hasRatPair_of_count_zero (l : List RatingRow) (u : UserId)
    (r : RecipeId) (h : countRatPair l u r = 0) :
    hasRatPair l u r = false := by
  by_cases hh : hasRatPair l u r = true
  · exact absurd h (Nat.ne_of_gt (count_pos_of_hasRatPair l u r hh))
  · exact Bool.eq_false_iff.mpr hh

theorem rateView_int (s : Store) (u : UserId) (r : RecipeId) (n : ℤ)
    (h1 : 1 ≤ n) (h5 : n ≤ 5) :
    rateView s u r (PyVal.int n) =
      ({ s with ratings := (updateOrCreateRating s.ratings u r (PyVal.int n)).1 },
       if (updateOrCreateRating s.ratings u r (PyVal.int n)).2 then
         EngageOutcome.createdNew
       else EngageOutcome.okUpdated) := by
  have ht : truthy (PyVal.int n) = true := by
    simp only [truthy, bne_iff_ne, ne_eq, decide_eq_true_eq]
    omega
  unfold rateView
  simp [ht, pyIntOf, h1, h5]

theorem overwriteFirst_append_single (l : List RatingRow) (u : UserId)
    (r : RecipeId) (w v : PyVal) (h : hasRatPair l u r = false) :
    overwriteFirstRating (l ++ [⟨u, r, w⟩]) u r v = l ++ [⟨u, r, v⟩] := by
  induction l with
  | nil => simp [overwriteFirstRating, ratPairMatch]
  | cons row t ih =>
    rw [hasRatPair_cons] at h
    rcases Bool.or_eq_false_iff.mp h with ⟨hm, h2⟩
    simp [overwriteFirstRating, hm, ih h2]

/-- Claim C2: for every user and recipe, rate with a valid integer value is
an upsert keyed on (user, recipe) — if no Rating row exists for the pair a
fresh one is appended and the call reports created (201,
`EngageOutcome.createdNew`); if one exists its rating value is overwritten
in place and the call reports updated (200, `EngageOutcome.okUpdated`).
In particular rate 3 followed by rate 5 leaves exactly one Rating row for
the pair, holding the value 5. -/
theorem rate_upsert (s : Store) (u : UserId) (r : RecipeId) :
    (∀ n : ℤ, 1 ≤ n → n ≤ 5 →
      (hasRatPair s.ratings u r = false →
        rateView s u r (PyVal.int n) =
          ({ s with ratings := s.ratings ++ [⟨u, r, PyVal.int n⟩] },
           EngageOutcome.createdNew)) ∧
      (hasRatPair s.ratings u r = true →
        rateView s u r (PyVal.int n) =
          ({ s with ratings :=
              overwriteFirstRating s.ratings u r (PyVal.int n) },
           EngageOutcome.okUpdated))) ∧
    (countRatPair s.ratings u r = 0 →
      ((rateView ((rateView s u r (PyVal.int 3)).1) u r
          (PyVal.int 5)).1.ratings.filter (ratPairMatch u r)) =
        [⟨u, r, PyVal.int 5⟩]) := by
  constructor
  · intro n h1 h5
    constructor
    · intro hno
      rw [rateView_int s u r n h1 h5, updOC_of_not_has s.ratings u r _ hno]
      simp
    · intro hyes
      rw [rateView_int s u r n h1 h5, updOC_of_has s.ratings u r _ hyes]
      simp
  · intro hcount
    have hno := hasRatPair_of_count_zero s.ratings u r hcount
    have h3 : rateView s u r (PyVal.int 3) =
        ({ s with ratings := s.ratings ++ [⟨u, r, PyVal.int 3⟩] },
         EngageOutcome.createdNew) := by
      rw [rateView_int s u r 3 (by norm_num) (by norm_num),
        updOC_of_not_has s.ratings u r _ hno]
      simp
    rw [h3]
    have hyes : hasRatPair (s.ratings ++ [⟨u, r, PyVal.int 3⟩]) u r = true := by
      simp [hasRatPair, List.any_append, ratPairMatch]
    have h5 : rateView ({ s with
        ratings := s.ratings ++ [⟨u, r, PyVal.int 3⟩] } : Store) u r
        (PyVal.int 5) =
        ({ s with ratings := s.ratings ++ [⟨u, r, PyVal.int 5⟩] },
         EngageOutcome.okUpdated) := by
      rw [rateView_int _ u r 5 (by norm_num) (by norm_num),
        updOC_of_has _ u r _ hyes]
      rw [overwriteFirst_append_single s.ratings u r _ _ hno]
      simp
    rw [h5]
    rw [List.filter_append, filter_eq_nil_of_count_zero s.ratings u r hcount]
    simp [ratPairMatch]

/-- Witness for C2: from the empty store, rating 3 creates the single row
and then rating 5 leaves exactly one row for the pair with value 5. -/
theorem rate_upsert_witness :
    rateView emptyStore 1 1 (PyVal.int 3) =
      ({ emptyStore with ratings := [⟨1, 1, PyVal.int 3⟩] },
       EngageOutcome.createdNew) ∧
    ((rateView ((rateView emptyStore 1 1 (PyVal.int 3)).1) 1 1
        (PyVal.int 5)).1.ratings.filter (ratPairMatch 1 1)) =
      [⟨1, 1, PyVal.int 5⟩] := by
  have h := rate_upsert emptyStore 1 1
  refine ⟨?_, h.2 (by decide)⟩
  have h2 := (h.1 3 (by norm_num) (by norm_num)).1 (by decide)
  simpa [emptyStore] using h2

/-! ### Claim C6 -/

/-- Claim C6 (amended): the rate call succeeds exactly when the submitted
value is truthy and Python `int()` truncates it into [1,5]; it then stores
the submitted value as given, so every integer in [1,5] is stored
faithfully, but a non-integer numeric such as 4.5 is also accepted and
stored unvalidated.  Falsy values and values whose truncation falls
outside [1,5] fail with 400 and leave the store unchanged, while values on
which `int()` raises (non-numeric strings) produce an unhandled server
error rather than the 400 the claim requires. -/
theorem rate_validation (s : Store) (u : UserId) (r : RecipeId) (v : PyVal) :
    (truthy v = false → rateView s u r v = (s, EngageOutcome.badRequest)) ∧
    (truthy v = true → pyIntOf v = Option.none →
      rateView s u r v = (s, EngageOutcome.serverError)) ∧
    (∀ k : ℤ, truthy v = true → pyIntOf v = some k → (k < 1 ∨ 5 < k) →
      rateView s u r v = (s, EngageOutcome.badRequest)) ∧
    (∀ k : ℤ, truthy v = true → pyIntOf v = some k → 1 ≤ k → k ≤ 5 →
      hasRatPair s.ratings u r = false →
      rateView s u r v =
        ({ s with ratings := s.ratings ++ [⟨u, r, v⟩] },
         EngageOutcome.createdNew)) := by
  refine ⟨?_, ?_, ?_, ?_⟩
  · intro h
    unfold rateView
    simp [h]
  · intro ht hp
    unfold rateView
    simp [ht, hp]
  · intro k ht hp hout
    unfold rateView
    have : ¬(1 ≤ k ∧ k ≤ 5) := by omega
    simp [ht, hp, this]
  · intro k ht hp h1 h5 hno
    unfold rateView
    simp [ht, hp, h1, h5, updOC_of_not_has s.ratings u r v hno]

/-- Counterexample for C6 as stated: the non-numeric string "abc" is not
an integer in [1,5] yet the call fails with an unhandled server error
instead of the claimed 400, and the non-integer value 4.5 is accepted
(201) and stored as submitted rather than rejected. -/
theorem rate_validation_counterexample :
    (rateView emptyStore 1 1 (PyVal.str "abc")).2 =
      EngageOutcome.serverError ∧
    EngageOutcome.serverError ≠ EngageOutcome.badRequest ∧
    rateView emptyStore 1 1 (PyVal.float (9 / 2)) =
      ({ emptyStore with ratings := [⟨1, 1, PyVal.float (9 / 2)⟩] },
       EngageOutcome.createdNew) := by
  refine ⟨by decide, by decide, ?_⟩
  have ht : truthy (PyVal.float (9 / 2)) = true := by
    simp only [truthy, bne_iff_ne, ne_eq, decide_eq_true_eq]
    norm_num
  have hfloor : ⌊(9 : ℚ) / 2⌋ = 4 := by
    rw [Int.floor_eq_iff]
    norm_num
  have hp : pyIntOf (PyVal.float (9 / 2)) = some 4 := by
    simp only [pyIntOf, ratTrunc]
    rw [if_pos (by norm_num), hfloor]
  unfold rateView
  simp [ht, hp, updateOrCreateRating, emptyStore]

/-- Witness for C6 (amended): the integer 2 is truthy, truncates to
itself, lies in [1,5] and is stored as submitted with a 201. -/
theorem rate_validation_witness :
    rateView emptyStore 1 1 (PyVal.int 2) =
      ({ emptyStore with ratings := [⟨1, 1, PyVal.int 2⟩] },
       EngageOutcome.createdNew) := by
  have h := (rate_validation emptyStore 1 1 (PyVal.int 2)).2.2.2 2
    (by decide) (by decide) (by norm_num) (by norm_num) (by decide)
  simpa [emptyStore] using h

/-! ### Claim C7 -/

/-- Claim C7 (amended): the comment call rejects only a missing or
empty-string text with 400 and an unchanged store; any other text —
whitespace-only included — is stored verbatim in a newly created Comment
row, with no trimming, and repeating the call appends a second row
(comments are never upserted). -/
theorem comment_behavior (s : Store) (u : UserId) (r : RecipeId)
    (t : Option String) :
    (truthyText t = false →
      commentView s u r t = (s, EngageOutcome.badRequest)) ∧
    (∀ x : String, t = some x → x ≠ "" →
      (commentView s u r t).1.comments = s.comments ++ [⟨u, r, x⟩] ∧
      (commentView s u r t).2 = EngageOutcome.createdNew ∧
      (commentView ((commentView s u r t).1) u r t).1.comments =
        s.comments ++ [⟨u, r, x⟩, ⟨u, r, x⟩]) := by
  constructor
  · intro h
    unfold commentView
    simp [h]
  · intro x hx hne
    subst hx
    have ht : truthyText (some x) = true := by
      simp [truthyText, hne]
    unfold commentView
    simp [ht]

/-- Counterexample for C7 as stated: the whitespace-only text "   " is
truthy, so the call succeeds (201) and stores "   " instead of failing,
and " hi " is stored with its surrounding spaces rather than trimmed to
"hi". -/
theorem comment_counterexample :
    (commentView emptyStore 1 1 (some "   ")).2 =
      EngageOutcome.createdNew ∧
    (commentView emptyStore 1 1 (some "   ")).1.comments =
      [⟨1, 1, "   "⟩] ∧
    (commentView emptyStore 1 1 (some " hi ")).1.comments =
      [⟨1, 1, " hi "⟩] ∧
    (" hi " : String) ≠ "hi" := by
  refine ⟨by decide, by decide, by decide, by decide⟩

/-- Witness for C7 (amended): a plain non-empty text is stored verbatim in
a fresh Comment row and a second identical call appends another row. -/
theorem comment_behavior_witness :
    (commentView emptyStore 2 3 (some "hello")).1.comments =
      [⟨2, 3, "hello"⟩] ∧
    (commentView emptyStore 2 3 (some "hello")).2 =
      EngageOutcome.createdNew ∧
    (commentView ((commentView emptyStore 2 3 (some "hello")).1) 2 3
        (some "hello")).1.comments =
      [⟨2, 3, "hello"⟩, ⟨2, 3, "hello"⟩] := by
  have h := (comment_behavior emptyStore 2 3 (some "hello")).2 "hello" rfl
    (by decide)
  exact ⟨by simpa [emptyStore] using h.1, h.2.1,
    by simpa [emptyStore] using h.2.2⟩

/-! ### Claim C3 -/

theorem pyRound1_of_den_one (q : ℚ) (h : (10 * q).den = 1) :
    pyRound1 q = q := by
  have hnum : ((10 * q).num : ℚ) = 10 * q := (Rat.den_eq_one_iff _).mp h
  have hfloor : ⌊(10 * q)⌋ = (10 * q).num := by
    conv_lhs => rw [← hnum]
    exact Int.floor_intCast _
  have hfrac : 10 * q - ((10 * q).num : ℚ) = 0 := by
    rw [hnum]
    ring
  have hround : roundHalfEven (10 * q) = (10 * q).num := by
    unfold roundHalfEven
    rw [hfloor, hfrac]
    norm_num
  unfold pyRound1
  rw [hround, hnum]
  ring

/-- Claim C3 (amended): the value returned for averageRating is the
arithmetic mean of the recipe's current Rating values rounded to one
decimal (Python `round(x, 1)`, banker's rounding); it equals the exact
mean whenever ten times the mean is an integer — in particular it is 0.0
when no ratings exist and 4.0 for ratings [3,5] — but for means with a
longer decimal expansion, such as [1,1,2], the returned value differs
from the exact mean. -/
theorem average_rating_serialized (l : List ℤ) :
    get_average_rating l = pyRound1 (average_rating l) ∧
    (l = [] → get_average_rating l = 0) ∧
    ((10 * average_rating l).den = 1 →
      get_average_rating l = average_rating l) := by
  refine ⟨rfl, ?_, ?_⟩
  · intro h
    subst h
    have h0 : average_rating [] = 0 := rfl
    unfold get_average_rating
    rw [h0, pyRound1_of_den_one 0 (by norm_num)]
  · intro h
    unfold get_average_rating
    exact pyRound1_of_den_one _ h

/-- Counterexample for C3 as stated: for ratings [1,1,2] the exact mean is
4/3 but the serializer returns 1.3, so the returned value is not the
arithmetic mean. -/
theorem average_rating_counterexample :
    average_rating [1, 1, 2] = 4 / 3 ∧
    get_average_rating [1, 1, 2] = 13 / 10 ∧
    (13 : ℚ) / 10 ≠ 4 / 3 := by
  have havg : average_rating [1, 1, 2] = 4 / 3 := by
    simp [average_rating]
  refine ⟨havg, ?_, by norm_num⟩
  have hfloor : ⌊(10 : ℚ) * (4 / 3)⌋ = 13 := by
    rw [Int.floor_eq_iff]
    norm_num
  unfold get_average_rating pyRound1 roundHalfEven
  rw [havg, hfloor]
  rw [if_pos (by norm_num)]
  norm_num

/-- Witness for C3 (amended): for ratings [3,5] ten times the mean is the
integer 40, so the serialized value equals the exact mean 4.0; for no
ratings the serialized value is 0.0. -/
theorem average_rating_serialized_witness :
    get_average_rating [3, 5] = average_rating [3, 5] ∧
    average_rating [3, 5] = 4 ∧
    get_average_rating [] = 0 := by
  have havg : average_rating [3, 5] = 4 := by
    simp [average_rating]
    norm_num
  have hden : (10 * average_rating [3, 5]).den = 1 := by
    rw [havg]
    norm_num
  exact ⟨(average_rating_serialized [3, 5]).2.2 hden, havg,
    (average_rating_serialized []).2.1 rfl⟩

/-! ### Claim C4 -/

/-- Claim C4 (amended): `listRecipes` returns exactly the recipes matching
the optional search/category/author filters, regardless of their
`is_published` flag and of who views (so unpublished recipes are NOT
excluded for anonymous or non-owner viewers); `myRecipes` returns exactly
the recipes authored by the caller, published or not. -/
theorem list_recipes_visibility (db : List Recipe) (f : Filters)
    (u : Account) (rec : Recipe) :
    (rec ∈ listRecipes db f ↔ rec ∈ db ∧ matchesFilters f rec = true) ∧
    (rec ∈ myRecipes db u ↔ rec ∈ db ∧ rec.author = u) := by
  constructor
  · unfold listRecipes
    rw [List.mem_insertionSort]
    exact List.mem_filter
  · unfold myRecipes
    rw [List.mem_filter]
    simp [beq_iff_eq]

/-- Counterexample for C4 as stated: an unpublished recipe is returned by
the unfiltered list endpoint (whose query is viewer-independent, hence the
same for an anonymous viewer), contradicting the claim that no unpublished
recipe reaches a non-owner, non-admin viewer. -/
theorem list_recipes_counterexample :
    sampleUnpublished ∈ listRecipes [sampleUnpublished] noFilters ∧
    sampleUnpublished.is_published = false := by
  refine ⟨by decide, rfl⟩

/-! ### Claim C5 -/

/-- Claim C5 (amended): through the owner-gated endpoints (the
`IsOwnerOrReadOnly` check used by `RecipeViewSet` and
`CommentUpdateDeleteView`), safe (read) requests are permitted
unconditionally, and an update/delete succeeds exactly when the requester
is the entity's owner (its `author` for a Recipe, its `user` for a
Comment); the administrative flag confers no access through this check —
a non-owner admin is denied like any other non-owner. -/
theorem owner_permission (m : Method) (req : Account) (obj : PObj)
    (a : Account) :
    (isSafeMethod m = true → isOwnerOrReadOnly m req obj = true) ∧
    (isSafeMethod m = false → obj.author = some a →
      (isOwnerOrReadOnly m req obj = true ↔ a = req)) ∧
    (isSafeMethod m = false → obj.author = Option.none →
      obj.user = some a →
      (isOwnerOrReadOnly m req obj = true ↔ a = req)) := by
  refine ⟨?_, ?_, ?_⟩
  · intro h
    unfold isOwnerOrReadOnly
    simp [h]
  · intro hm hA
    unfold isOwnerOrReadOnly
    simp [hm, hA]
  · intro hm hA hU
    unfold isOwnerOrReadOnly
    simp [hm, hA, hU]

/-- Counterexample for C5 as stated: an admin (staff) account that does
not own a comment is denied the write by `IsOwnerOrReadOnly`, although the
claim says requests by an admin succeed. -/
theorem owner_permission_counterexample :
    adminAcct.is_staff = true ∧
    isOwnerOrReadOnly Method.DELETE adminAcct commentObj = false := by
  refine ⟨rfl, by decide⟩

/-- Witness for C5 (amended): the owner's DELETE on their own comment
passes the check, and a safe GET by the admin passes unconditionally. -/
theorem owner_permission_witness :
    isOwnerOrReadOnly Method.DELETE ownerAcct commentObj = true ∧
    isOwnerOrReadOnly Method.GET adminAcct commentObj = true := by
  have h := owner_permission Method.DELETE ownerAcct commentObj ownerAcct
  have h2 := owner_permission Method.GET adminAcct commentObj ownerAcct
  exact ⟨(h.2.2 (by decide) rfl rfl).mpr rfl, h2.1 (by decide)⟩

/-! ### Claim C10 -/

/-- Claim C10: for every object exposing neither an `author` nor a `user`
attribute, the ownership checks default to deny — `IsOwnerOrReadOnly`
denies every non-safe request, and `IsOwnerOrAdmin` denies every request
by a non-staff account. -/
theorem ownerless_denied (m : Method) (req : Account) (obj : PObj)
    (hA : obj.author = Option.none) (hU : obj.user = Option.none)
    (hm : isSafeMethod m = false) :
    isOwnerOrReadOnly m req obj = false ∧
    (req.is_staff = false → isOwnerOrAdmin req obj = false) := by
  constructor
  · unfold isOwnerOrReadOnly
    simp [hm, hA, hU]
  · intro hs
    unfold isOwnerOrAdmin
    simp [hs, hA, hU]

/-- Witness for C10: a concrete ownerless object is denied a DELETE by
`IsOwnerOrReadOnly` and denied altogether by `IsOwnerOrAdmin` for a
non-staff requester. -/
theorem ownerless_denied_witness :
    isOwnerOrReadOnly Method.DELETE ownerAcct
      ⟨Option.none, Option.none⟩ = false ∧
    isOwnerOrAdmin ownerAcct ⟨Option.none, Option.none⟩ = false := by
  have h := ownerless_denied Method.DELETE ownerAcct
    ⟨Option.none, Option.none⟩ rfl rfl (by decide)
  exact ⟨h.1, h.2 rfl⟩

/-! ### Claim C8 -/

/-- Claim C8 (spec-modelled validation, see `titleOk`): a create-recipe
request whose title is shorter than 3 characters or whose description is
shorter than 10 is rejected and no Recipe row is created; a title of
exactly 3 characters passes the title check, and a request passing both
checks appends exactly the new recipe row. -/
theorem create_recipe_validation (db : List Recipe) (newId : Nat)
    (author : Account) (now : Nat) (inp : RecipeInput) :
    (inp.title.length < 3 ∨ inp.description.length < 10 →
      createRecipe db newId author now inp = (db, EngageOutcome.badRequest)) ∧
    (inp.title.length = 3 → titleOk inp.title = true) ∧
    (3 ≤ inp.title.length → 10 ≤ inp.description.length →
      createRecipe db newId author now inp =
        (db ++ [mkRecipe newId author now inp], EngageOutcome.createdNew)) := by
  refine ⟨?_, ?_, ?_⟩
  · intro h
    have hv : validateRecipeInput inp = false := by
      unfold validateRecipeInput titleOk descriptionOk
      rcases h with h | h
      · have hn : ¬3 ≤ inp.title.length := by omega
        simp [hn]
      · have hn : ¬10 ≤ inp.description.length := by omega
        simp [hn]
    unfold createRecipe
    simp [hv]
  · intro h
    unfold titleOk
    simp [h]
  · intro h1 h2
    have hv : validateRecipeInput inp = true := by
      unfold validateRecipeInput titleOk descriptionOk
      simp [h1, h2]
    unfold createRecipe
    simp [hv]

/-- Witness for C8: the request with 3-character title "Pie" and
10-character description passes the title boundary check and creates
exactly one recipe. -/
theorem create_recipe_validation_witness :
    titleOk sampleInput.title = true ∧
    createRecipe [] 1 ownerAcct 0 sampleInput =
      ([mkRecipe 1 ownerAcct 0 sampleInput], EngageOutcome.createdNew) := by
  have h := create_recipe_validation [] 1 ownerAcct 0 sampleInput
  exact ⟨h.2.1 (by decide),
    by simpa using h.2.2 (by decide) (by decide)⟩

/-! ### Claim C9 -/

theorem updateRecipe_fst (inst : Recipe) (items : List IngredientRow)
    (d : RecipeUpdate) :
    (updateRecipe inst items d).1 =
      { inst with
        title := d.title.getD inst.title
        description := d.description.getD inst.description
        instructions := d.instructions.getD inst.instructions
        ingredients := d.ingredients.getD inst.ingredients
        image_url := d.image_url.getD inst.image_url
        category := d.category.getD inst.category
        prep_time := d.prep_time.getD inst.prep_time
        cook_time := d.cook_time.getD inst.cook_time
        servings := d.servings.getD inst.servings
        is_published := d.is_published.getD inst.is_published } := by
  unfold updateRecipe
  cases d.ingredient_items <;> rfl

theorem updateRecipe_snd_none (inst : Recipe) (items : List IngredientRow)
    (d : RecipeUpdate) (h : d.ingredient_items = Option.none) :
    (updateRecipe inst items d).2 = items := by
  unfold updateRecipe
  simp [h]

theorem updateRecipe_snd_some (inst : Recipe) (items : List IngredientRow)
    (d : RecipeUpdate) (li : List IngredientRow)
    (h : d.ingredient_items = some li) :
    (updateRecipe inst items d).2 = li := by
  unfold updateRecipe
  simp [h]

/-- Claim C9: in a partial recipe update every field not supplied keeps
its prior value (and `id`, `author`, `created_at` are never touched), and
whenever an ingredient list is supplied the resulting ingredient rows are
exactly the supplied ones — the prior rows are all deleted, never merged
in. -/
theorem update_recipe_frame (inst : Recipe) (items : List IngredientRow)
    (d : RecipeUpdate) :
    ((updateRecipe inst items d).1.id = inst.id ∧
     (updateRecipe inst items d).1.author = inst.author ∧
     (updateRecipe inst items d).1.created_at = inst.created_at) ∧
    (d.title = Option.none →
      (updateRecipe inst items d).1.title = inst.title) ∧
    (d.description = Option.none →
      (updateRecipe inst items d).1.description = inst.description) ∧
    (d.instructions = Option.none →
      (updateRecipe inst items d).1.instructions = inst.instructions) ∧
    (d.ingredients = Option.none →
      (updateRecipe inst items d).1.ingredients = inst.ingredients) ∧
    (d.image_url = Option.none →
      (updateRecipe inst items d).1.image_url = inst.image_url) ∧
    (d.category = Option.none →
      (updateRecipe inst items d).1.category = inst.category) ∧
    (d.prep_time = Option.none →
      (updateRecipe inst items d).1.prep_time = inst.prep_time) ∧
    (d.cook_time = Option.none →
      (updateRecipe inst items d).1.cook_time = inst.cook_time) ∧
    (d.servings = Option.none →
      (updateRecipe inst items d).1.servings = inst.servings) ∧
    (d.is_published = Option.none →
      (updateRecipe inst items d).1.is_published = inst.is_published) ∧
    (d.ingredient_items = Option.none →
      (updateRecipe inst items d).2 = items) ∧
    (∀ li : List IngredientRow, d.ingredient_items = some li →
      (updateRecipe inst items d).2 = li) := by
  rw [updateRecipe_fst]
  refine ⟨⟨rfl, rfl, rfl⟩, ?_, ?_, ?_, ?_, ?_, ?_, ?_, ?_, ?_, ?_, ?_, ?_⟩
  · intro h; simp [h]
  · intro h; simp [h]
  · intro h; simp [h]
  · intro h; simp [h]
  · intro h; simp [h]
  · intro h; simp [h]
  · intro h; simp [h]
  · intro h; simp [h]
  · intro h; simp [h]
  · intro h; simp [h]
  · intro h
    exact updateRecipe_snd_none inst items d h
  · intro li h
    exact updateRecipe_snd_some inst items d li h

/-- Witness for C9: under the concrete update supplying a new title and a
replacement ingredient list, the unsupplied description keeps its prior
value and the ingredient rows become exactly the supplied list whatever
rows existed before. -/
theorem update_recipe_frame_witness :
    (updateRecipe sampleUnpublished
      [⟨"old stuff", Option.none, Option.none, Option.none⟩]
      sampleUpd).2 = sampleItems ∧
    (updateRecipe sampleUnpublished [] sampleUpd).1.description =
      sampleUnpublished.description := by
  have h := update_recipe_frame sampleUnpublished
    [⟨"old stuff", Option.none, Option.none, Option.none⟩] sampleUpd
  have h2 := update_recipe_frame sampleUnpublished [] sampleUpd
  exact ⟨h.2.2.2.2.2.2.2.2.2.2.2.2 sampleItems rfl, h2.2.2.1 rfl⟩

end RecipeApp
